import Mathlib

/-!
Shallow embedding of the book_management FastAPI CRUD service (src/app.py).

The database state is modelled as the list of rows of the `books` table
together with the auto-increment counter for the `id` primary key column.
Each HTTP handler of src/app.py becomes a function from its validated
arguments and the database state to a response paired with the new state.

MySQL-level behaviour that the handlers rely on is made explicit:
  - `id` is an auto-increment primary key: an INSERT stores the counter value
    as the row id and bumps the counter (src/app.py line 24).
  - `isbn` carries a UNIQUE constraint (src/app.py line 28): a commit that
    would produce two rows with the same isbn raises an IntegrityError.
    None of the handlers catches it, so FastAPI surfaces it as an HTTP 500
    response (`Resp.internalError`).
FastAPI validates request bodies against the pydantic schema `BookCreate`
before the handler body runs; a payload that does not satisfy the schema is
answered with HTTP 422 and the handler is never entered
(`Resp.validationError`).
-/

namespace BookManagement

/-- The pydantic schema `BookCreate` (src/app.py lines 43-51): the validated
request body for create and update. `description` has default None, hence
optional. -/
structure BookCreate where
  title : String
  author : String
  description : Option String
  isbn : String
  published_year : Int
deriving DecidableEq, Repr

/-- A row of the `books` table, i.e. the SQLAlchemy model `Book`
(src/app.py lines 19-29). -/
structure Book where
  id : Int
  title : String
  author : String
  description : Option String
  isbn : String
  published_year : Int
deriving DecidableEq, Repr

/-- The database state: the rows of the `books` table in storage order, plus
the next value of the auto-increment `id` counter. -/
structure DB where
  books : List Book
  nextId : Int
deriving DecidableEq, Repr

/-- Well-formedness that MySQL maintains for the table: every stored id is
below the auto-increment counter, and ids are pairwise distinct (primary
key). -/
def distinctIds : List Book → Bool
  | [] => true
  | b :: bs => bs.all (fun c => c.id != b.id) && distinctIds bs

def DB.wf (db : DB) : Bool :=
  db.books.all (fun b => b.id < db.nextId) && distinctIds db.books

/-- Outcome of one HTTP request, as produced by FastAPI from the handler:
a 200 response with a body, an explicitly raised HTTPException, a pydantic
validation failure (HTTP 422), or an exception that no handler catches
(HTTP 500), e.g. a MySQL IntegrityError. -/
inductive Resp (α : Type) where
  | ok (body : α)
  | httpError (status : Nat) (detail : String)
  | validationError
  | internalError
deriving DecidableEq, Repr

/-- The HTTP status code of a response. -/
def Resp.status : Resp α → Nat
  | .ok _ => 200
  | .httpError s _ => s
  | .validationError => 422
  | .internalError => 500

/-- `db.query(Book).filter(Book.id == book_id).first()`: the first row whose
id equals `book_id`. -/
def firstBook (book_id : Int) (db : DB) : Option Book :=
  db.books.find? (fun b => b.id == book_id)

/-- Replace the first row whose id equals `book_id` by `nb`, leaving all
other rows untouched: the effect of mutating the ORM object returned by
`.first()` and committing. -/
def setFirst (book_id : Int) (nb : Book) : List Book → List Book
  | [] => []
  | b :: bs => if b.id == book_id then nb :: bs else b :: setFirst book_id nb bs

/-- GET /books (src/app.py lines 67-73): return all rows. -/
def get_books (db : DB) : Resp (List Book) × DB :=
  (.ok db.books, db)

/-- GET /books/:book_id (src/app.py lines 75-83): return the row with the
given id, or raise HTTPException 404. -/
def get_book (book_id : Int) (db : DB) : Resp Book × DB :=
  match firstBook book_id db with
  | none => (.httpError 404 "Book not found", db)
  | some book => (.ok book, db)

/-- POST /books (src/app.py lines 85-100): build a row from the validated
payload, insert it and commit. The id is taken from the auto-increment
counter. If a row with the same isbn already exists the UNIQUE constraint
makes the commit raise, nothing is inserted, and the uncaught exception
becomes HTTP 500. -/
def create_book (book : BookCreate) (db : DB) : Resp Book × DB :=
  let db_book : Book :=
    { id := db.nextId
      title := book.title
      author := book.author
      description := book.description
      isbn := book.isbn
      published_year := book.published_year }
  if db.books.any (fun b => b.isbn == book.isbn) then
    (.internalError, db)
  else
    (.ok db_book, { books := db.books ++ [db_book], nextId := db.nextId + 1 })

/-- PUT /books/:book_id (src/app.py lines 102-119): fetch the row with the
given id (404 if absent), overwrite all five mutable fields from the
validated payload, and commit. If the new isbn collides with a different
row the UNIQUE constraint makes the commit raise, the row keeps its old
contents, and the uncaught exception becomes HTTP 500. -/
def update_book (book_id : Int) (updated_book : BookCreate) (db : DB) :
    Resp Book × DB :=
  match firstBook book_id db with
  | none => (.httpError 404 "Book not found", db)
  | some db_book =>
    let new_book : Book :=
      { id := db_book.id
        title := updated_book.title
        author := updated_book.author
        description := updated_book.description
        isbn := updated_book.isbn
        published_year := updated_book.published_year }
    if db.books.any (fun b => b.id != book_id && b.isbn == updated_book.isbn) then
      (.internalError, db)
    else
      (.ok new_book, { db with books := setFirst book_id new_book db.books })

/-- DELETE /books/:book_id (src/app.py lines 121-132): fetch the row with
the given id (404 if absent), delete that row and commit, and return the
confirmation message. -/
def delete_book (book_id : Int) (db : DB) : Resp String × DB :=
  match firstBook book_id db with
  | none => (.httpError 404 "Book not found", db)
  | some _ =>
    (.ok ("Book with ID " ++ toString book_id ++ " deleted"),
     { db with books := db.books.eraseP (fun b => b.id == book_id) })

/-- A JSON primitive appearing as a field value in a request body. -/
inductive JVal where
  | jstr (s : String)
  | jint (n : Int)
  | jnull
deriving DecidableEq, Repr

/-- A JSON object request body: an association list of field names to
values. -/
def Payload := List (String × JVal)

/-- Value of field `k` in the payload, if present. -/
def lookupField (p : Payload) (k : String) : Option JVal :=
  match List.find? (fun kv => kv.1 == k) p with
  | some kv => some kv.2
  | none => none

/-- Accumulate the remaining digits of a Python decimal numeral: after a
digit, a single underscore may separate digit groups, anything else
non-digit fails (so trailing or doubled underscores fail, as in Python). -/
def pyDigitsGo : Nat → List Char → Option Nat
  | acc, [] => some acc
  | acc, '_' :: c :: rest =>
    if c.isDigit then pyDigitsGo (10 * acc + (c.toNat - 48)) rest else none
  | acc, c :: rest =>
    if c.isDigit then pyDigitsGo (10 * acc + (c.toNat - 48)) rest else none

/-- Python's digitpart: one ASCII digit, then digits with optional single
underscores between digit groups. -/
def pyDigitpart? : List Char → Option Nat
  | [] => none
  | c :: rest => if c.isDigit then pyDigitsGo (c.toNat - 48) rest else none

/-- An optionally signed Python decimal numeral. -/
def pySigned? : List Char → Option Int
  | '+' :: rest => (pyDigitpart? rest).map (fun n => (n : Int))
  | '-' :: rest => (pyDigitpart? rest).map (fun n => -(n : Int))
  | cs => (pyDigitpart? cs).map (fun n => (n : Int))

/-- Drop leading whitespace characters. -/
def dropWhitespace : List Char → List Char
  | [] => []
  | c :: rest => if c.isWhitespace then dropWhitespace rest else c :: rest

/-- Strip whitespace from both ends, as Python's int() does before
parsing. -/
def pyTrim (cs : List Char) : List Char :=
  (dropWhitespace (dropWhitespace cs).reverse).reverse

/-- Python's int() on a string, which pydantic v1 uses to coerce a string
supplied for an `int` field: surrounding whitespace is stripped, then an
optionally signed base-10 numeral (single underscores between digits
allowed) is parsed; anything else raises, i.e. fails validation. -/
def pyInt? (s : String) : Option Int :=
  pySigned? (pyTrim s.toList)

/-- A required `str` field under pydantic v1: a string stands, a number is
coerced via str(); null or absent fails validation. -/
def reqStr (p : Payload) (k : String) : Option String :=
  match lookupField p k with
  | some (.jstr s) => some s
  | some (.jint n) => some (toString n)
  | _ => none

/-- A required `int` field under pydantic v1: an integer stands, a string
is coerced via Python's int(); null, absent, or a non-numeric string fails
validation. -/
def reqInt (p : Payload) (k : String) : Option Int :=
  match lookupField p k with
  | some (.jint n) => some n
  | some (.jstr s) => pyInt? s
  | _ => none

/-- The optional `str` field with default None under pydantic v1: absent or
null yields `none`, a string yields `some`, a number is coerced via
str(). -/
def optStr (p : Payload) (k : String) : Option (Option String) :=
  match lookupField p k with
  | some (.jstr s) => some (some s)
  | some (.jint n) => some (some (toString n))
  | some .jnull => some none
  | none => some none

/-- Validation of a request body against the pydantic schema `BookCreate`
(src/app.py lines 43-51) with pydantic v1 semantics (the source uses the v1
idioms `orm_mode` and `description: str = None`): `title`, `author`, `isbn`
required strings, `published_year` a required integer, `description`
optional; v1 lax coercion applies, so a numeric string is accepted for the
int field and a number for a str field. Fields not in the schema (such as
`id`) are ignored, pydantic's default. Returns `none` when the payload
fails validation. -/
def parseBookCreate (p : Payload) : Option BookCreate :=
  match reqStr p "title", reqStr p "author", optStr p "description",
        reqStr p "isbn", reqInt p "published_year" with
  | some t, some a, some d, some i, some y =>
    some { title := t, author := a, description := d, isbn := i,
           published_year := y }
  | _, _, _, _, _ => none

/-- The POST /books route as seen from the wire: FastAPI validates the body
against `BookCreate` and answers 422 without entering the handler when
validation fails. -/
def postBooks (p : Payload) (db : DB) : Resp Book × DB :=
  match parseBookCreate p with
  | none => (.validationError, db)
  | some book => create_book book db

/-- Scenario payload of spec §8: Dune. -/
def bcDune : BookCreate :=
  { title := "Dune", author := "Herbert", description := none,
    isbn := "0441013597", published_year := 1965 }

/-- A second valid payload with a different isbn. -/
def bcOther : BookCreate :=
  { title := "Neuromancer", author := "Gibson", description := none,
    isbn := "0441569595", published_year := 1984 }

/-- A payload reusing the isbn of `bcOther` but different elsewhere. -/
def bcTakenIsbn : BookCreate :=
  { title := "Dune Messiah", author := "X", description := none,
    isbn := "0441569595", published_year := 1969 }

/-- The row `bcDune` receives when created in the empty database. -/
def bookDune : Book :=
  { id := 1, title := "Dune", author := "Herbert", description := none,
    isbn := "0441013597", published_year := 1965 }

/-- The row `bcOther` receives when created next. -/
def bookOther : Book :=
  { id := 2, title := "Neuromancer", author := "Gibson", description := none,
    isbn := "0441569595", published_year := 1984 }

/-- The freshly initialized database: empty table, counter at 1. -/
def dbEmpty : DB := { books := [], nextId := 1 }

/-- Database holding only the Dune row. -/
def dbOne : DB := { books := [bookDune], nextId := 2 }

/-- Database holding the Dune and Neuromancer rows. -/
def dbTwo : DB := { books := [bookDune, bookOther], nextId := 3 }

/-- The row with id 1 after updating it wholesale with `bcOther`. -/
def bookOtherAt1 : Book :=
  { id := 1, title := "Neuromancer", author := "Gibson", description := none,
    isbn := "0441569595", published_year := 1984 }

/-- `dbOne` after updating book 1 with `bcOther`. -/
def dbOneUpdated : DB := { books := [bookOtherAt1], nextId := 2 }

/-- `dbOne` after deleting book 1. -/
def dbOneDeleted : DB := { books := [], nextId := 2 }

/-- Scenario payload of spec §8 as a JSON body: Dune, schema-valid. -/
def payloadDune : Payload :=
  [("title", JVal.jstr "Dune"), ("author", JVal.jstr "Herbert"),
   ("isbn", JVal.jstr "0441013597"), ("published_year", JVal.jint 1965)]

/-- A schema-valid payload for Dune, with a stray `id` field. -/
def payloadDuneWithId : Payload :=
  [("id", JVal.jint 77), ("title", JVal.jstr "Dune"),
   ("author", JVal.jstr "Herbert"), ("isbn", JVal.jstr "0441013597"),
   ("published_year", JVal.jint 1965)]

theorem find?_filter_ne (p : List (String × JVal)) (k k0 : String)
    (hk : (k == k0) = false) :
    List.find? (fun kv => kv.1 == k) (List.filter (fun kv => kv.1 != k0) p)
      = List.find? (fun kv => kv.1 == k) p := by
  induction p with
  | nil => rfl
  | cons kv rest ih =>
    by_cases h0 : kv.1 = k0
    · have hkk : (k0 == k) = false := by
        rw [beq_eq_false_iff_ne]
        intro h
        exact (beq_eq_false_iff_ne.mp hk) h.symm
      simp [List.filter_cons, List.find?, h0, hkk, ih]
    · have hf : (kv.1 != k0) = true := by simp [bne, h0]
      simp [List.filter_cons, List.find?, hf, ih]

theorem lookupField_filter_ne (p : Payload) (k k0 : String)
    (hk : (k == k0) = false) :
    lookupField (List.filter (fun kv => kv.1 != k0) p) k = lookupField p k := by
  simp only [lookupField, find?_filter_ne p k k0 hk]

theorem parseBookCreate_filter_id (p : Payload) :
    parseBookCreate (List.filter (fun kv => kv.1 != "id") p) = parseBookCreate p := by
  simp only [parseBookCreate, reqStr, reqInt, optStr,
    lookupField_filter_ne p "title" "id" (by decide),
    lookupField_filter_ne p "author" "id" (by decide),
    lookupField_filter_ne p "description" "id" (by decide),
    lookupField_filter_ne p "isbn" "id" (by decide),
    lookupField_filter_ne p "published_year" "id" (by decide)]

theorem find?_append_nextId (l : List Book) (n : Int) (b : Book)
    (hlt : l.all (fun c => c.id < n) = true) (hb : b.id = n) :
    (l ++ [b]).find? (fun c => c.id == n) = some b := by
  rw [List.find?_append]
  have h1 : l.find? (fun c => c.id == n) = none := by
    rw [List.find?_eq_none]
    intro x hx hxn
    have hx2 := of_decide_eq_true ((List.all_eq_true.mp hlt) x hx)
    rw [beq_iff_eq] at hxn
    rw [hxn] at hx2
    exact lt_irrefl n hx2
  rw [h1]
  simp [List.find?, hb]

theorem find?_eraseP_eq_none (i : Int) (l : List Book)
    (h : distinctIds l = true) :
    (l.eraseP (fun b => b.id == i)).find? (fun b => b.id == i) = none := by
  induction l with
  | nil => rfl
  | cons b bs ih =>
    simp only [distinctIds, Bool.and_eq_true] at h
    by_cases hb : b.id = i
    · rw [List.eraseP_cons_of_pos (by simp [hb])]
      rw [List.find?_eq_none]
      intro x hx hxn
      have hx2 := (List.all_eq_true.mp h.1) x hx
      rw [bne_iff_ne] at hx2
      rw [beq_iff_eq] at hxn
      exact hx2 (by rw [hxn, hb])
    · have hbf : (b.id == i) = false := by simp [hb]
      rw [List.eraseP_cons_of_neg (by simp [hb])]
      simp [List.find?, hbf, ih h.2]

theorem find?_setFirst (i : Int) (nb : Book) (l : List Book)
    (hnb : (nb.id == i) = true) (b0 : Book)
    (hex : l.find? (fun b => b.id == i) = some b0) :
    (setFirst i nb l).find? (fun b => b.id == i) = some nb := by
  induction l with
  | nil => simp [List.find?] at hex
  | cons b bs ih =>
    by_cases hb : b.id = i
    · have hbt : (b.id == i) = true := by simp [hb]
      simp [setFirst, hbt, List.find?, hnb]
    · have hbf : (b.id == i) = false := by simp [hb]
      simp only [List.find?, hbf] at hex
      simp [setFirst, hbf, List.find?, ih hex]

theorem filter_setFirst (i : Int) (nb : Book) (l : List Book)
    (hnb : (nb.id == i) = true) :
    (setFirst i nb l).filter (fun b => b.id != i) = l.filter (fun b => b.id != i) := by
  induction l with
  | nil => rfl
  | cons b bs ih =>
    by_cases hb : b.id = i
    · have hbt : (b.id == i) = true := by simp [hb]
      have h1 : (nb.id != i) = false := by simp [bne, hnb]
      have h2 : (b.id != i) = false := by simp [bne, hbt]
      simp [setFirst, hbt, List.filter_cons, h1, h2]
    · have hbf : (b.id == i) = false := by simp [hb]
      have h2 : (b.id != i) = true := by simp [bne, hbf]
      simp [setFirst, hbf, List.filter_cons, h2, ih]

theorem filter_eraseP_id (i : Int) (l : List Book) :
    (l.eraseP (fun b => b.id == i)).filter (fun b => b.id != i)
      = l.filter (fun b => b.id != i) := by
  induction l with
  | nil => rfl
  | cons b bs ih =>
    by_cases hb : b.id = i
    · have hbt : (b.id == i) = true := by simp [hb]
      have h2 : (b.id != i) = false := by simp [bne, hbt]
      rw [List.eraseP_cons_of_pos (by simp [hb])]
      simp [List.filter_cons, h2]
    · have hbf : (b.id == i) = false := by simp [hb]
      have h2 : (b.id != i) = true := by simp [bne, hbf]
      rw [List.eraseP_cons_of_neg (by simp [hb])]
      simp [List.filter_cons, h2, ih]

theorem create_book_ok (bc : BookCreate) (db : DB) (b : Book) (db' : DB)
    (hc : create_book bc db = (.ok b, db')) :
    b = { id := db.nextId, title := bc.title, author := bc.author,
          description := bc.description, isbn := bc.isbn,
          published_year := bc.published_year } ∧
    db' = { books := db.books ++ [b], nextId := db.nextId + 1 } := by
  rw [create_book] at hc
  by_cases hdup : (db.books.any (fun c => c.isbn == bc.isbn)) = true
  · rw [if_pos hdup] at hc
    injection hc with h1 h2
    cases h1
  · rw [if_neg hdup] at hc
    injection hc with h1 h2
    injection h1 with h1
    exact ⟨h1.symm, by rw [← h2, h1]⟩

theorem update_book_ok (i : Int) (bc : BookCreate) (db : DB) (b : Book)
    (db' : DB) (hu : update_book i bc db = (.ok b, db')) :
    ∃ db_book, firstBook i db = some db_book ∧ (db_book.id == i) = true ∧
      b = { id := db_book.id, title := bc.title, author := bc.author,
            description := bc.description, isbn := bc.isbn,
            published_year := bc.published_year } ∧
      db' = { db with books := setFirst i b db.books } := by
  rw [update_book] at hu
  cases hfb : firstBook i db with
  | none =>
    rw [hfb] at hu
    dsimp only at hu
    injection hu with h1 h2
    cases h1
  | some db_book =>
    rw [hfb] at hu
    dsimp only at hu
    by_cases hdup : (db.books.any (fun c => c.id != i && c.isbn == bc.isbn)) = true
    · rw [if_pos hdup] at hu
      injection hu with h1 h2
      cases h1
    · rw [if_neg hdup] at hu
      injection hu with h1 h2
      injection h1 with h1
      have hid : (db_book.id == i) = true := by
        have hfb' : db.books.find? (fun c => c.id == i) = some db_book := hfb
        exact @List.find?_some _ (fun c => c.id == i) db_book db.books hfb'
      exact ⟨db_book, rfl, hid, h1.symm, by rw [← h2, h1]⟩

theorem delete_book_some (i : Int) (db : DB) (b : Book)
    (hex : firstBook i db = some b) :
    delete_book i db = (.ok ("Book with ID " ++ toString i ++ " deleted"),
      { db with books := db.books.eraseP (fun c => c.id == i) }) := by
  rw [delete_book, hex]

/-- Claim C1: for every valid Book payload P (title, author, isbn,
published_year present with correct types, description optional), when the
create operation accepts P and assigns an id, getting that id returns a
record whose fields equal P plus the assigned id. The id only exists when
create succeeds, so the statement is conditioned on a successful create. -/
theorem claim_C1_create_then_get (p : Payload) (bc : BookCreate) (db : DB)
    (b : Book) (db' : DB) (hwf : db.wf = true)
    (hp : parseBookCreate p = some bc)
    (hc : postBooks p db = (.ok b, db')) :
    get_book b.id db' = (.ok b, db') ∧ b.id = db.nextId ∧
    b.title = bc.title ∧ b.author = bc.author ∧
    b.description = bc.description ∧ b.isbn = bc.isbn ∧
    b.published_year = bc.published_year := by
  rw [postBooks, hp] at hc
  obtain ⟨hb, hdb⟩ := create_book_ok bc db b db' hc
  simp only [DB.wf, Bool.and_eq_true] at hwf
  have hfind := find?_append_nextId db.books db.nextId b hwf.1 (by rw [hb])
  subst hdb
  refine ⟨?_, by rw [hb], by rw [hb], by rw [hb], by rw [hb], by rw [hb], by rw [hb]⟩
  rw [get_book, firstBook]
  have hbid : b.id = db.nextId := by rw [hb]
  simp only [hbid]
  rw [hfind]

/-- Witness for C1: creating Dune in the fresh database assigns id 1 and a
get of id 1 returns the Dune record. -/
theorem claim_C1_witness :
    get_book bookDune.id dbOne = (.ok bookDune, dbOne) ∧
    bookDune.id = dbEmpty.nextId ∧
    bookDune.title = bcDune.title ∧ bookDune.author = bcDune.author ∧
    bookDune.description = bcDune.description ∧ bookDune.isbn = bcDune.isbn ∧
    bookDune.published_year = bcDune.published_year :=
  claim_C1_create_then_get payloadDune bcDune dbEmpty bookDune dbOne
    (by decide) (by decide) (by decide)

/-- Claim C2 as frozen is false on the code: the duplicate-isbn create is
rejected by the store, but src/app.py catches nothing, so the caller sees
HTTP 500, not 409 and not 400. Concretely: creating Dune again over a table
already holding Dune. -/
theorem claim_C2_counterexample :
    Resp.status (create_book bcDune dbOne).1 = 500 ∧
    Resp.status (create_book bcDune dbOne).1 ≠ 409 ∧
    Resp.status (create_book bcDune dbOne).1 ≠ 400 := by decide

/-- Claim C2 (amended): when a book with isbn S exists, a create with isbn S
fails — the UNIQUE constraint rejects the insert and the uncaught
IntegrityError surfaces as HTTP 500 — and the table is unchanged, so it
retains only the first book with isbn S. -/
theorem claim_C2_duplicate_isbn (bc : BookCreate) (db : DB)
    (hdup : db.books.any (fun c => c.isbn == bc.isbn) = true) :
    create_book bc db = (.internalError, db) ∧
    Resp.status (create_book bc db).1 = 500 := by
  have h : create_book bc db = (.internalError, db) := by
    simp [create_book, hdup]
  exact ⟨h, by rw [h]; rfl⟩

/-- Witness for the amended C2 at the concrete duplicate-Dune input. -/
theorem claim_C2_witness :
    create_book bcDune dbOne = (.internalError, dbOne) ∧
    Resp.status (create_book bcDune dbOne).1 = 500 :=
  claim_C2_duplicate_isbn bcDune dbOne (by decide)

/-- Claim C4: for every id with no matching book, get, update and delete
each answer HTTP 404 with detail "Book not found" and leave the table
unchanged. -/
theorem claim_C4_not_found (i : Int) (db : DB)
    (habs : firstBook i db = none) :
    get_book i db = (.httpError 404 "Book not found", db) ∧
    (∀ bc : BookCreate, update_book i bc db = (.httpError 404 "Book not found", db)) ∧
    delete_book i db = (.httpError 404 "Book not found", db) := by
  refine ⟨?_, fun bc => ?_, ?_⟩
  · rw [get_book, habs]
  · rw [update_book, habs]
  · rw [delete_book, habs]

/-- Witness for C4: id 999 was never created in the one-row database. -/
theorem claim_C4_witness :
    get_book 999 dbOne = (.httpError 404 "Book not found", dbOne) ∧
    update_book 999 bcOther dbOne = (.httpError 404 "Book not found", dbOne) ∧
    delete_book 999 dbOne = (.httpError 404 "Book not found", dbOne) :=
  have h := claim_C4_not_found 999 dbOne (by decide)
  ⟨h.1, h.2.1 bcOther, h.2.2⟩

theorem get_after_update (i : Int) (bc : BookCreate) (db : DB) (b : Book)
    (db' : DB) (hu : update_book i bc db = (.ok b, db')) :
    get_book i db' = (.ok b, db') := by
  obtain ⟨db_book, hfb, hid, hb, hdb⟩ := update_book_ok i bc db b db' hu
  have hbid : (b.id == i) = true := by rw [hb]; exact hid
  have hfb' : db.books.find? (fun c => c.id == i) = some db_book := hfb
  have hfind := find?_setFirst i b db.books hbid db_book hfb'
  subst hdb
  rw [get_book, firstBook]
  dsimp only
  rw [hfind]

/-- Claim C5 as frozen is false on the code: updating book 1 with a payload
whose isbn is already held by book 2 makes the commit violate the UNIQUE
constraint, the handler answers HTTP 500, and a following get still returns
the old record, whose author differs from the payload's. -/
theorem claim_C5_counterexample :
    (update_book 1 bcTakenIsbn dbTwo).1 = .internalError ∧
    get_book 1 (update_book 1 bcTakenIsbn dbTwo).2
      = (.ok bookDune, (update_book 1 bcTakenIsbn dbTwo).2) ∧
    bookDune.author ≠ bcTakenIsbn.author := by decide

/-- Claim C5 (amended): for every existing id I and valid payload P2 that
the store accepts (its isbn is not held by a different row), update(I, P2)
followed by get(I) returns a record whose mutable fields are exactly those
of P2 — wholesale replacement, not a merge. -/
theorem claim_C5_update_then_get (i : Int) (bc : BookCreate) (db : DB)
    (b : Book) (db' : DB) (hu : update_book i bc db = (.ok b, db')) :
    get_book i db' = (.ok b, db') ∧
    b.title = bc.title ∧ b.author = bc.author ∧
    b.description = bc.description ∧ b.isbn = bc.isbn ∧
    b.published_year = bc.published_year := by
  obtain ⟨db_book, hfb, hid, hb, hdb⟩ := update_book_ok i bc db b db' hu
  exact ⟨get_after_update i bc db b db' hu,
    by rw [hb], by rw [hb], by rw [hb], by rw [hb], by rw [hb]⟩

/-- Witness for the amended C5: replacing Dune by Neuromancer at id 1. -/
theorem claim_C5_witness :
    get_book 1 dbOneUpdated = (.ok bookOtherAt1, dbOneUpdated) ∧
    bookOtherAt1.title = bcOther.title ∧
    bookOtherAt1.author = bcOther.author ∧
    bookOtherAt1.description = bcOther.description ∧
    bookOtherAt1.isbn = bcOther.isbn ∧
    bookOtherAt1.published_year = bcOther.published_year :=
  claim_C5_update_then_get 1 bcOther dbOne bookOtherAt1 dbOneUpdated (by decide)

/-- Claim C6: deleting an existing id succeeds with the confirmation
message, and a subsequent get of that id answers HTTP 404: the row is hard
deleted. -/
theorem claim_C6_delete_then_get (i : Int) (db : DB) (b : Book)
    (hwf : db.wf = true) (hex : firstBook i db = some b) :
    (delete_book i db).1 = .ok ("Book with ID " ++ toString i ++ " deleted") ∧
    get_book i (delete_book i db).2
      = (.httpError 404 "Book not found", (delete_book i db).2) := by
  have hd := delete_book_some i db b hex
  simp only [DB.wf, Bool.and_eq_true] at hwf
  have hnone := find?_eraseP_eq_none i db.books hwf.2
  rw [hd]
  refine ⟨rfl, ?_⟩
  rw [get_book, firstBook]
  dsimp only
  rw [hnone]

/-- Witness for C6 at the concrete one-row database. -/
theorem claim_C6_witness :
    (delete_book 1 dbOne).1
      = .ok ("Book with ID " ++ toString (1 : Int) ++ " deleted") ∧
    get_book 1 (delete_book 1 dbOne).2
      = (.httpError 404 "Book not found", (delete_book 1 dbOne).2) :=
  claim_C6_delete_then_get 1 dbOne bookDune (by decide) (by decide)

/-- Claim C7: deleting an existing id twice succeeds once with the
confirmation message; the second call answers HTTP 404 and leaves the state
reached after the first call unchanged. -/
theorem claim_C7_delete_idempotent (i : Int) (db : DB) (b : Book)
    (hwf : db.wf = true) (hex : firstBook i db = some b) :
    (delete_book i db).1 = .ok ("Book with ID " ++ toString i ++ " deleted") ∧
    delete_book i (delete_book i db).2
      = (.httpError 404 "Book not found", (delete_book i db).2) := by
  have hd := delete_book_some i db b hex
  simp only [DB.wf, Bool.and_eq_true] at hwf
  have hnone := find?_eraseP_eq_none i db.books hwf.2
  rw [hd]
  refine ⟨rfl, ?_⟩
  rw [delete_book, firstBook]
  dsimp only
  rw [hnone]

/-- Witness for C7 at the concrete one-row database. -/
theorem claim_C7_witness :
    (delete_book 1 dbOne).1
      = .ok ("Book with ID " ++ toString (1 : Int) ++ " deleted") ∧
    delete_book 1 (delete_book 1 dbOne).2
      = (.httpError 404 "Book not found", (delete_book 1 dbOne).2) :=
  claim_C7_delete_idempotent 1 dbOne bookDune (by decide) (by decide)

/-- Claim C8: an `id` field supplied in a create request body is ignored —
removing every `id` key from the payload does not change the outcome — and
the id of a created record is always the server's auto-increment counter. -/
theorem claim_C8_id_ignored (p : Payload) (db : DB) :
    postBooks (List.filter (fun kv => kv.1 != "id") p) db = postBooks p db ∧
    (∀ b db', postBooks p db = (.ok b, db') → b.id = db.nextId) := by
  constructor
  · simp only [postBooks, parseBookCreate_filter_id]
  · intro b db' hc
    rw [postBooks] at hc
    cases hp : parseBookCreate p with
    | none =>
      rw [hp] at hc
      dsimp only at hc
      injection hc with h1 h2
      cases h1
    | some bc =>
      rw [hp] at hc
      dsimp only at hc
      rw [(create_book_ok bc db b db' hc).1]

/-- Witness for C8: the Dune payload carrying a stray id 77 creates a book
with the server-assigned id 1. -/
theorem claim_C8_witness :
    postBooks (List.filter (fun kv => kv.1 != "id") payloadDuneWithId) dbEmpty
      = postBooks payloadDuneWithId dbEmpty ∧
    bookDune.id = dbEmpty.nextId :=
  have h := claim_C8_id_ignored payloadDuneWithId dbEmpty
  ⟨h.1, h.2 bookDune dbOne (by decide)⟩

/-- Claim C9: a successful update of id I returns a record that still has
id I, and a subsequent get of I returns that same record, with id I: the id
is never changed by update. -/
theorem claim_C9_update_preserves_id (i : Int) (bc : BookCreate) (db : DB)
    (b : Book) (db' : DB) (hu : update_book i bc db = (.ok b, db')) :
    b.id = i ∧ get_book i db' = (.ok b, db') := by
  obtain ⟨db_book, hfb, hid, hb, hdb⟩ := update_book_ok i bc db b db' hu
  have hbid : (b.id == i) = true := by rw [hb]; exact hid
  exact ⟨by rw [beq_iff_eq] at hbid; exact hbid,
    get_after_update i bc db b db' hu⟩

/-- Witness for C9: updating id 1 keeps id 1. -/
theorem claim_C9_witness :
    bookOtherAt1.id = 1 ∧
    get_book 1 dbOneUpdated = (.ok bookOtherAt1, dbOneUpdated) :=
  claim_C9_update_preserves_id 1 bcOther dbOne bookOtherAt1 dbOneUpdated
    (by decide)

/-- Claim C10 (frame property): a successful create appends exactly one new
row, keeping every pre-existing row; successful update and delete of id I
leave the sublist of rows with id different from I exactly as it was. -/
theorem claim_C10_frame (db : DB) :
    (∀ bc b db', create_book bc db = (.ok b, db') →
      db'.books = db.books ++ [b]) ∧
    (∀ i bc b db', update_book i bc db = (.ok b, db') →
      db'.books.filter (fun c => c.id != i)
        = db.books.filter (fun c => c.id != i)) ∧
    (∀ i msg db', delete_book i db = (.ok msg, db') →
      db'.books.filter (fun c => c.id != i)
        = db.books.filter (fun c => c.id != i)) := by
  refine ⟨fun bc b db' hc => ?_, fun i bc b db' hu => ?_,
    fun i msg db' hd => ?_⟩
  · rw [(create_book_ok bc db b db' hc).2]
  · obtain ⟨db_book, hfb, hid, hb, hdb⟩ := update_book_ok i bc db b db' hu
    have hbid : (b.id == i) = true := by rw [hb]; exact hid
    rw [hdb]
    exact filter_setFirst i b db.books hbid
  · rw [delete_book] at hd
    cases hfb : firstBook i db with
    | none =>
      rw [hfb] at hd
      dsimp only at hd
      injection hd with h1 h2
      cases h1
    | some b0 =>
      rw [hfb] at hd
      dsimp only at hd
      injection hd with h1 h2
      rw [← h2]
      exact filter_eraseP_id i db.books

/-- Witness for C10: concrete create, update and delete steps on the sample
databases. -/
theorem claim_C10_witness :
    dbOne.books = dbEmpty.books ++ [bookDune] ∧
    dbOneUpdated.books.filter (fun c => c.id != 1)
      = dbOne.books.filter (fun c => c.id != 1) ∧
    dbOneDeleted.books.filter (fun c => c.id != 1)
      = dbOne.books.filter (fun c => c.id != 1) :=
  ⟨(claim_C10_frame dbEmpty).1 bcDune bookDune dbOne (by decide),
   (claim_C10_frame dbOne).2.1 1 bcOther bookOtherAt1 dbOneUpdated (by decide),
   (claim_C10_frame dbOne).2.2 1 ("Book with ID " ++ toString (1 : Int) ++ " deleted")
     dbOneDeleted (by decide)⟩

end BookManagement
